import Mathlib

/-!
Shallow embedding of the YTMusicLabBot repository (src/main.py, src/database.py,
src/youtube_service.py) for verification of its specification.

The embedding models:
  * the per-user conversation session store (`SimpleMusicBot.user_sessions`),
  * candidate-selection resolution in `handle_mp3_download` / `handle_mp4_download`,
  * the search workflow `handle_search` and its keyboard rendering,
  * the mp3 download workflow `process_mp3_download` and
    `send_promotional_content`,
  * the access gate (`is_admin` + `check_channel_membership` as composed in
    `handle_text_message`),
  * `YouTubeService.search_videos`,
  * the database operations on promos, downloads, settings and users
    (`Database.delete_all_promos`, `add_promo`, `get_current_promo`,
    `add_download`, `get_setting`, `get_user_count`).

External collaborators (yt-dlp extraction, Telegram transport) are modelled as
explicit environment values describing their outcome; the Python `dict` session
map is modelled as an association list with first-match lookup (observationally
the overwrite-on-assignment dict).
-/

namespace MusicBot

/-- A candidate video as built by `YouTubeService.search_videos`
(fields `id`, `title`, `channel`, `url`, `thumbnail`). -/
structure Video where
  vid : String
  title : String
  channel : String
  url : String
  thumbnail : String
deriving DecidableEq

/-- A resolved single video as returned by `YouTubeService.get_video_info`
(fields `id`, `title`, `channel`, `duration`, `thumbnail`, `url`). -/
structure VideoInfo where
  vid : String
  title : String
  channel : String
  duration : Int
  thumbnail : String
  url : String
deriving DecidableEq

/-- The tagged payload stored in `SimpleMusicBot.user_sessions[user_id]`:
either the dict `{'search_results': videos, 'query': query}` written by
`handle_search` / `handle_lyrics_to_download`, or the dict
`{'url_video': video_info, 'original_url': url}` written by `handle_youtube_url`. -/
inductive SessionPayload where
  | candidateList (search_results : List Video) (query : String)
  | resolvedTarget (url_video : VideoInfo) (original_url : String)
deriving DecidableEq

abbrev UserId := Int

/-- The session map `self.user_sessions : Dict[int, Dict]`, modelled as an
association list whose head entry for a key is the current binding. -/
def SessionStore := List (UserId × SessionPayload)

instance : DecidableEq SessionStore := by
  unfold SessionStore
  infer_instance

/-- `self.user_sessions[user_id] = payload` (dict assignment, unconditional
overwrite). -/
def SessionStore.put (s : SessionStore) (u : UserId) (p : SessionPayload) : SessionStore :=
  (u, p) :: s

/-- Dict lookup `self.user_sessions.get(user_id)`: `none` models
`user_id not in self.user_sessions`. -/
def SessionStore.get (s : SessionStore) (u : UserId) : Option SessionPayload :=
  (s.find? (fun e => e.1 == u)).map (fun e => e.2)

/-- Python list indexing `videos[i]` for a possibly negative `i`:
a negative index counts from the end; `none` models a raised `IndexError`. -/
def pyIndex (l : List Video) (i : Int) : Option Video :=
  if 0 ≤ i then l.get? i.toNat
  else if 0 ≤ (l.length : Int) + i then l.get? ((l.length : Int) + i).toNat
  else none

/-- Outcome of the candidate-resolution prefix of `handle_mp3_download` /
`handle_mp4_download` (src/main.py lines 407-424 and 504-521). -/
inductive ResolveResult where
  | sessionExpired   -- "❌ Session expired. Please search again."
  | invalidSelection -- "❌ Invalid selection. Please search again."
  | keyError         -- uncaught KeyError: entry has no 'search_results' key
  | indexError       -- uncaught IndexError from videos[result_index]
  | ok (v : Video)
deriving DecidableEq

/-- Candidate-selection resolution, exactly as `handle_mp3_download` performs
it: membership test on `user_sessions`, then access of `['search_results']`
(a `KeyError` on a `resolvedTarget` entry), then the guard
`result_index >= len(videos)`, then Python indexing `videos[result_index]`. -/
def resolveCandidate (s : SessionStore) (u : UserId) (i : Int) : ResolveResult :=
  match s.get u with
  | none => .sessionExpired
  | some (.resolvedTarget _ _) => .keyError
  | some (.candidateList videos _) =>
    if (videos.length : Int) ≤ i then .invalidSelection
    else
      match pyIndex videos i with
      | some v => .ok v
      | none => .indexError

/-- A row of the `users` table (src/database.py, `init_database`). -/
structure UserRow where
  user_id : UserId
  username : Option String
  first_name : Option String
  last_name : Option String
  is_active : Bool
deriving DecidableEq

/-- A row of the `downloads` table, as written by `Database.add_download`. -/
structure DownloadRow where
  user_id : UserId
  song_title : String
  format : String
  effect : Option String
deriving DecidableEq

/-- A row of the `promos` table (fields `file_id`, `caption`, `created_at`;
`created_at` is the ISO-format text written by `addpromo_command`). -/
structure Promo where
  file_id : String
  caption : String
  created_at : String
deriving DecidableEq

/-- The SQLite database state manipulated by `Database`. -/
structure DB where
  users : List UserRow
  downloads : List DownloadRow
  settings : List (String × String)
  promos : List Promo
deriving DecidableEq

/-- `Database.get_setting`: `SELECT value FROM bot_settings WHERE key = ?`. -/
def get_setting (db : DB) (key : String) : Option String :=
  (db.settings.find? (fun kv => kv.1 == key)).map (fun kv => kv.2)

/-- `Database.add_download`: `INSERT INTO downloads (user_id, song_title,
format, effect) VALUES (?, ?, ?, ?)` (appends one row). -/
def add_download (db : DB) (u : UserId) (title fmt : String) (effect : Option String) : DB :=
  { db with downloads := db.downloads ++ [⟨u, title, fmt, effect⟩] }

/-- `Database.delete_all_promos`: `DELETE FROM promos`. -/
def delete_all_promos (db : DB) : DB :=
  { db with promos := [] }

/-- `Database.add_promo`: `INSERT INTO promos (file_id, caption, created_at)
VALUES (?, ?, ?)` (appends one row). -/
def add_promo (db : DB) (p : Promo) : DB :=
  { db with promos := db.promos ++ [p] }

/-- The row selected by `ORDER BY created_at DESC LIMIT 1`: an element of
maximal `created_at` (SQLite compares the TEXT column lexicographically);
on ties the earlier row is kept, a deterministic stable tie-break. -/
def maxByCreated : List Promo → Option Promo
  | [] => none
  | p :: rest =>
    match maxByCreated rest with
    | none => some p
    | some q => if p.created_at < q.created_at then some q else some p

/-- `Database.get_current_promo`: `SELECT file_id, caption, created_at FROM
promos ORDER BY created_at DESC LIMIT 1`. -/
def get_current_promo (db : DB) : Option Promo :=
  maxByCreated db.promos

/-- The promo-replacement sequence of `addpromo_command` (src/main.py lines
1035-1036): `self.db.delete_all_promos()` then `self.db.add_promo(promo_data)`. -/
def addpromo_replace (db : DB) (p : Promo) : DB :=
  add_promo (delete_all_promos db) p

/-- `Database.get_user_count`: `(SELECT COUNT(*) FROM users,
SELECT COUNT(*) FROM users WHERE is_active = 1)`. -/
def get_user_count (db : DB) : Nat × Nat :=
  (db.users.length, (db.users.filter (fun r => r.is_active)).length)

/-! ### `YouTubeService.search_videos` (src/youtube_service.py lines 36-121) -/

/-- One element of the extraction's `entries` list: `none` models an entry
that is `None` or not a dict (skipped by `if entry and isinstance(entry,
dict)`); otherwise the values read by `entry.get('id', '')`,
`entry.get('title', 'Unknown Title')` and the uploader lookup. -/
structure RawEntry where
  eid : String
  etitle : String
  euploader : String
deriving DecidableEq

/-- Outcome of the inner `ydl.extract_info(search_url, download=False)` call
together with the shape dispatch that follows it. -/
inductive ExtractResult where
  | err                                       -- extraction raised: inner except returns []
  | noneResult                                -- returned None: `if search_results` is false
  | emptyDictResult                           -- returned a falsy (empty) dict
  | listResult                                -- truthy but not a dict: warning, no videos
  | dictEntries (entries : List (Option RawEntry))  -- dict with an 'entries' list
  | dictSingle (e : RawEntry)                 -- dict without entries but with 'title'
deriving DecidableEq

/-- Python substring test `needle in haystack`. -/
def pyIn (needle haystack : String) : Bool :=
  (haystack.splitOn needle).length != 1

/-- The video dict built for a kept entry (url and thumbnail derived from the
video id). -/
def mkVideo (e : RawEntry) : Video :=
  { vid := e.eid
    title := e.etitle
    channel := e.euploader
    url := "https://www.youtube.com/watch?v=" ++ e.eid
    thumbnail := "https://img.youtube.com/vi/" ++ e.eid ++ "/maxresdefault.jpg" }

/-- The entry loop of `search_videos`: skip falsy/non-dict entries; keep an
entry when `video_id` is nonempty and the title is not `'Unknown Title'`;
after processing a dict entry, break when `len(videos) >= max_results`. -/
def collectVideos (maxr : Int) : List (Option RawEntry) → List Video → List Video
  | [], acc => acc
  | none :: rest, acc => collectVideos maxr rest acc
  | some e :: rest, acc =>
    let acc2 := if e.eid ≠ "" ∧ e.etitle ≠ "Unknown Title" then acc ++ [mkVideo e] else acc
    if maxr ≤ (acc2.length : Int) then acc2 else collectVideos maxr rest acc2

/-- The hard-coded fallback candidate returned for test queries. -/
def despacitoVideo : Video :=
  { vid := "kJQP7kiw5Fk"
    title := "Luis Fonsi - Despacito ft. Daddy Yankee"
    channel := "LuisFonsiVEVO"
    url := "https://www.youtube.com/watch?v=kJQP7kiw5Fk"
    thumbnail := "https://img.youtube.com/vi/kJQP7kiw5Fk/maxresdefault.jpg" }

/-- The outer except branch of `search_videos`: the fallback list for queries
containing "test" or "despacito" (case-insensitive), else empty. -/
def fallbackVideos (query : String) : List Video :=
  if pyIn "test" query.toLower || pyIn "despacito" query.toLower then [despacitoVideo]
  else []

/-- `YouTubeService.search_videos(query, max_results)`.  `outerRaise` models
an exception escaping to the outer `except` (anything outside the inner
extraction try); `extract` models the inner extraction outcome. -/
def search_videos (outerRaise : Bool) (extract : ExtractResult)
    (query : String) (max_results : Int) : List Video :=
  if outerRaise then fallbackVideos query
  else
    match extract with
    | .err => []
    | .noneResult => []
    | .emptyDictResult => []
    | .listResult => []
    | .dictEntries entries => collectVideos max_results entries []
    | .dictSingle e => collectVideos max_results [some e] []

/-! ### Search workflow and keyboard rendering (src/main.py lines 260-304,
708-748) -/

/-- A selectable inline-keyboard action; `mp3`/`mp4` carry the callback data
`download_mp3:{video_id}:{i}` / `download_mp4:{video_id}:{i}`. -/
inductive Action where
  | mp3 (videoId : String) (idx : Nat)
  | mp4 (videoId : String) (idx : Nat)
  | getLyrics (q : String)
  | searchAgain
deriving DecidableEq

/-- The candidate index an action selects, if it is a selection action. -/
def Action.candidateIdx : Action → Option Nat
  | .mp3 _ i => some i
  | .mp4 _ i => some i
  | _ => none

/-- The per-candidate button loop of `handle_search` (lines 279-290): for the
i-th video it appends one MP3 button and one MP4 button. -/
def searchButtons : Nat → List Video → List Action
  | _, [] => []
  | i, v :: rest => .mp3 v.vid i :: .mp4 v.vid i :: searchButtons (i + 1) rest

/-- The full keyboard rendered by `handle_search`: candidate buttons followed
by the "Get Lyrics" and "Search Again" buttons. -/
def searchKeyboard (videos : List Video) (query : String) : List Action :=
  searchButtons 0 videos ++ [.getLyrics query, .searchAgain]

/-- Observable outcome of `handle_search`. -/
inductive SearchOutcome where
  | noResults        -- "❌ No results found. ..."
  | listed (n : Nat) -- result list rendered with n candidates
deriving DecidableEq

/-- The post-search part of `handle_search` (lines 273-304): on an empty
result list, report no results and return before the session write; otherwise
render the list and store `{'search_results': videos, 'query': query}`. -/
def handle_search_core (s : SessionStore) (u : UserId) (query : String)
    (videos : List Video) : SearchOutcome × SessionStore :=
  if videos.isEmpty then (.noResults, s)
  else (.listed videos.length, s.put u (.candidateList videos query))

/-- `handle_search`: searches with the hard-coded `max_results=8` and runs the
post-search logic. -/
def handle_search (outerRaise : Bool) (extract : ExtractResult)
    (s : SessionStore) (u : UserId) (query : String) : SearchOutcome × SessionStore :=
  handle_search_core s u query (search_videos outerRaise extract query 8)

/-- `handle_lyrics_to_download` (lines 708-748): searches with the hard-coded
`max_results=3` and, on a nonempty result, stores the list the same way. -/
def handle_lyrics_to_download (outerRaise : Bool) (extract : ExtractResult)
    (s : SessionStore) (u : UserId) (song_info : String) : SearchOutcome × SessionStore :=
  handle_search_core s u song_info (search_videos outerRaise extract song_info 3)

/-! ### MP3 download workflow (src/main.py lines 407-502, 750-774) -/

/-- A message delivered to the user's chat. -/
inductive Msg where
  | audioFile (userId : UserId) (title : String)
  | separator (userId : UserId)
  | promoPhoto (userId : UserId) (file_id : String) (caption : String)
deriving DecidableEq

/-- Environment describing the outcome of each fallible external call in the
mp3 flow: the `download_audio` fetch, the `send_audio` transmission, the
`os.remove` cleanup of the temporary file, the "Download Complete" edit of
the status message, the `get_current_promo` read and the two promo sends. -/
structure Mp3Env where
  fetchResult : Option String
  sendAudioOk : Bool
  cleanupOk : Bool
  completeEditOk : Bool
  promoFetchOk : Bool
  promoSepSendOk : Bool
  promoPhotoSendOk : Bool
deriving DecidableEq

/-- `send_promotional_content` (lines 750-774): fetch the current promo; if
none, send nothing; otherwise send a separator then the promo photo.  Every
exception inside is caught and logged, so the function only determines which
messages actually went out. -/
def send_promotional_content (u : UserId) (db : DB) (env : Mp3Env) : List Msg :=
  if !env.promoFetchOk then []
  else
    match get_current_promo db with
    | none => []
    | some p =>
      if !env.promoSepSendOk then []
      else if !env.promoPhotoSendOk then [.separator u]
      else [.separator u, .promoPhoto u p.file_id p.caption]

/-- Result of one run of `process_mp3_download`: `raised` is the wrapped
exception message when the body raised (the database mutations and messages
already performed survive the raise, as they do in the program). -/
structure Mp3Result where
  raised : Option String
  db : DB
  msgs : List Msg
deriving DecidableEq

/-- `process_mp3_download` (lines 448-502), with every raise point in source
order: fetch the audio (raising on a `None` result at line 454), send the
audio file (raising on transport failure, lines 472-480), append the
download record `('mp3')` (line 483), remove the temporary file (line 487,
a raise here propagates with the record already appended), edit the status
message to "Download Complete" (lines 489-493, likewise), then best-effort
send the promo (line 496). -/
def process_mp3_download (u : UserId) (v : Video) (env : Mp3Env) (db : DB) :
    Mp3Result :=
  match env.fetchResult with
  | none => ⟨some "MP3 processing failed: Failed to download audio", db, []⟩
  | some _ =>
    if !env.sendAudioOk then ⟨some "MP3 processing failed: send_audio", db, []⟩
    else
      let db2 := add_download db u v.title "mp3" none
      if !env.cleanupOk then
        ⟨some "MP3 processing failed: os.remove", db2, [Msg.audioFile u v.title]⟩
      else if !env.completeEditOk then
        ⟨some "MP3 processing failed: edit_text", db2, [Msg.audioFile u v.title]⟩
      else
        ⟨none, db2, Msg.audioFile u v.title :: send_promotional_content u db2 env⟩

/-- Outcome of the full `handle_mp3_download` callback handler. -/
inductive Mp3Outcome where
  | sessionExpiredMsg
  | invalidSelectionMsg
  | uncaught            -- KeyError/IndexError escapes to the global error handler
  | downloadFailedMsg   -- the except branch of handle_mp3_download
  | completed
deriving DecidableEq

/-- `handle_mp3_download` (lines 407-446): resolve the selection against the
session store, and on success run `process_mp3_download`, reporting its raise
as the download-failed message.  The handler never writes to
`user_sessions`, so the store passes through unchanged. -/
def handle_mp3_flow (s : SessionStore) (u : UserId) (i : Int) (env : Mp3Env) (db : DB) :
    Mp3Outcome × SessionStore × DB × List Msg :=
  match resolveCandidate s u i with
  | .sessionExpired => (.sessionExpiredMsg, s, db, [])
  | .invalidSelection => (.invalidSelectionMsg, s, db, [])
  | .keyError => (.uncaught, s, db, [])
  | .indexError => (.uncaught, s, db, [])
  | .ok v =>
    match process_mp3_download u v env db with
    | ⟨some _, db2, msgs⟩ => (.downloadFailedMsg, s, db2, msgs)
    | ⟨none, db2, msgs⟩ => (.completed, s, db2, msgs)

/-- Number of promo photos among the delivered messages. -/
def countPromoPhotos (msgs : List Msg) : Nat :=
  (msgs.filter fun m => match m with | .promoPhoto _ _ _ => true | _ => false).length

/-! ### Access gate (src/main.py lines 356-364, 777-796) -/

/-- Result of `context.bot.get_chat_member`: the member status string, or a
raised exception. -/
inductive MembershipResult where
  | ok (status : String)
  | err
deriving DecidableEq

/-- `check_channel_membership` (lines 785-796): no forced channel setting (or
a falsy empty one) allows everyone; otherwise ask the collaborator, accept the
statuses `member`/`administrator`/`creator`, and allow on a raised exception. -/
def check_channel_membership (db : DB) (m : MembershipResult) : Bool :=
  match get_setting db "forced_channel" with
  | none => true
  | some ch =>
    if ch = "" then true
    else
      match m with
      | .err => true
      | .ok status => decide (status ∈ ["member", "administrator", "creator"])

/-- The gate as composed in `handle_text_message` (lines 360-364): admins
bypass the membership check, everyone else must pass it. -/
def allowedGate (adminIds : List UserId) (u : UserId) (db : DB) (m : MembershipResult) : Bool :=
  decide (u ∈ adminIds) || check_channel_membership db m

/-- Modelled from the spec (§4.3): `allowed(userId) = isAdmin(userId) OR NOT
forcedChannelConfigured() OR isMemberOfForcedChannel(userId)`, with the
membership check failing open on a collaborator error.  A forced channel is
configured when the setting is present and nonempty. -/
def forcedChannelConfigured (db : DB) : Bool :=
  match get_setting db "forced_channel" with
  | none => false
  | some ch => ch ≠ ""

/-- Modelled from the spec (§4.3): the spec-side gate predicate, to be
compared with `allowedGate` translated from the code. -/
def allowedSpec (adminIds : List UserId) (u : UserId) (db : DB) (m : MembershipResult) : Bool :=
  decide (u ∈ adminIds) || !forcedChannelConfigured db ||
    (match m with
     | .err => true
     | .ok status => decide (status ∈ ["member", "administrator", "creator"]))

/-! ### Helper lemmas -/

/-- Writing an entry for a user makes lookup return that entry. -/
theorem SessionStore.get_put (s : SessionStore) (u : UserId) (p : SessionPayload) :
    (s.put u p).get u = some p := by
  simp [SessionStore.get, SessionStore.put, List.find?]

/-- The entry loop keeps at most `maxr` videos once the accumulator is below
the cap. -/
theorem collectVideos_le_of_lt (maxr : Int) :
    ∀ (entries : List (Option RawEntry)) (acc : List Video),
      (acc.length : Int) < maxr →
      ((collectVideos maxr entries acc).length : Int) ≤ maxr := by
  intro entries
  induction entries with
  | nil => intro acc h; simpa [collectVideos] using le_of_lt h
  | cons hd tl ih =>
    intro acc h
    cases hd with
    | none => simpa [collectVideos] using ih acc h
    | some e =>
      simp only [collectVideos]
      set acc2 := if e.eid ≠ "" ∧ e.etitle ≠ "Unknown Title" then acc ++ [mkVideo e] else acc with hacc2
      have hlen : (acc2.length : Int) ≤ (acc.length : Int) + 1 := by
        rw [hacc2]; split <;> simp
      by_cases hbr : maxr ≤ (acc2.length : Int)
      · simp only [hbr, if_true]
        omega
      · simp only [hbr, if_false]
        exact ih acc2 (lt_of_not_le hbr)

/-- Once the cap is at most one above the accumulator, the entry loop adds at
most one more video. -/
theorem collectVideos_le_succ (maxr : Int) :
    ∀ (entries : List (Option RawEntry)) (acc : List Video),
      maxr ≤ (acc.length : Int) + 1 →
      ((collectVideos maxr entries acc).length : Int) ≤ (acc.length : Int) + 1 := by
  intro entries
  induction entries with
  | nil => intro acc _; simp [collectVideos]
  | cons hd tl ih =>
    intro acc h
    cases hd with
    | none => simpa [collectVideos] using ih acc h
    | some e =>
      simp only [collectVideos]
      set acc2 := if e.eid ≠ "" ∧ e.etitle ≠ "Unknown Title" then acc ++ [mkVideo e] else acc
        with hacc2
      have hlen : (acc2.length : Int) ≤ (acc.length : Int) + 1 := by
        rw [hacc2]; split <;> simp
      have hge : (acc.length : Int) ≤ (acc2.length : Int) := by
        rw [hacc2]; split <;> simp
      by_cases hbr : maxr ≤ (acc2.length : Int)
      · simp only [hbr, if_true]
        exact hlen
      · simp only [hbr, if_false]
        have hrec := ih acc2 (by omega)
        omega

/-- `search_videos` returns at most `max 1 max_results` videos. -/
theorem search_videos_length_le (o : Bool) (e : ExtractResult) (q : String) (m : Int) :
    ((search_videos o e q m).length : Int) ≤ max 1 m := by
  have hmax : (1 : Int) ≤ max 1 m := le_max_left 1 m
  have hcollect : ∀ entries : List (Option RawEntry),
      ((collectVideos m entries []).length : Int) ≤ max 1 m := by
    intro entries
    by_cases hm : 0 < m
    · have := collectVideos_le_of_lt m entries [] (by simpa using hm)
      exact le_trans this (le_max_right 1 m)
    · have := collectVideos_le_succ m entries [] (by simp; omega)
      simp only [List.length_nil] at this
      omega
  have h0 : (0 : Int) ≤ max 1 m := le_trans (by omega) hmax
  cases o with
  | true =>
    simp only [search_videos, if_true]
    unfold fallbackVideos
    split
    · simp
    · simp
  | false =>
    simp only [search_videos, Bool.false_eq_true, if_false]
    cases e with
    | err => simp
    | noneResult => simp
    | emptyDictResult => simp
    | listResult => simp
    | dictEntries entries => exact hcollect entries
    | dictSingle e2 => exact hcollect [some e2]

/-- Every selection action in the button list built from start index `n`
carries an index at least `n`. -/
theorem searchButtons_idx_ge (vs : List Video) :
    ∀ n, ∀ a ∈ searchButtons n vs, ∀ j, a.candidateIdx = some j → n ≤ j := by
  induction vs with
  | nil => intro n a ha; simp [searchButtons] at ha
  | cons v rest ih =>
    intro n a ha j hj
    simp only [searchButtons, List.mem_cons] at ha
    rcases ha with rfl | rfl | ha
    · simp [Action.candidateIdx] at hj; omega
    · simp [Action.candidateIdx] at hj; omega
    · have := ih (n + 1) a ha j hj
      omega

/-- The buttons selecting candidate `n + i` are exactly the MP3 and MP4
buttons of the `i`-th video. -/
theorem searchButtons_filter_at (vs : List Video) :
    ∀ n i (h : i < vs.length),
      (searchButtons n vs).filter (fun a => a.candidateIdx == some (n + i))
        = [.mp3 (vs.get ⟨i, h⟩).vid (n + i), .mp4 (vs.get ⟨i, h⟩).vid (n + i)] := by
  induction vs with
  | nil => intro n i h; simp at h
  | cons v rest ih =>
    intro n i h
    cases i with
    | zero =>
      simp only [searchButtons, List.filter_cons]
      have h1 : ((Action.mp3 v.vid n).candidateIdx == some (n + 0)) = true := by
        simp [Action.candidateIdx]
      have h2 : ((Action.mp4 v.vid n).candidateIdx == some (n + 0)) = true := by
        simp [Action.candidateIdx]
      rw [h1, h2]
      have hnil : (searchButtons (n + 1) rest).filter
          (fun a => a.candidateIdx == some (n + 0)) = [] := by
        rw [List.filter_eq_nil_iff]
        intro a ha
        intro hcontra
        simp only [beq_iff_eq] at hcontra
        have := searchButtons_idx_ge rest (n + 1) a ha (n + 0) hcontra
        omega
      rw [hnil]
      simp [List.get]
    | succ i0 =>
      simp only [searchButtons, List.filter_cons]
      have h1 : ((Action.mp3 v.vid n).candidateIdx == some (n + (i0 + 1))) = false := by
        simp [Action.candidateIdx]
      have h2 : ((Action.mp4 v.vid n).candidateIdx == some (n + (i0 + 1))) = false := by
        simp [Action.candidateIdx]
      rw [h1, h2]
      have h0 : i0 < rest.length := by simpa using Nat.lt_of_succ_lt_succ h
      have := ih (n + 1) i0 h0
      have harith : n + 1 + i0 = n + (i0 + 1) := by omega
      rw [harith] at this
      rw [this]
      simp [List.get]

/-- The button loop renders two actions per candidate. -/
theorem searchButtons_length (vs : List Video) :
    ∀ n, (searchButtons n vs).length = 2 * vs.length := by
  induction vs with
  | nil => intro n; simp [searchButtons]
  | cons v rest ih =>
    intro n
    simp [searchButtons, ih (n + 1)]
    omega

/-- The promo sender delivers at most one promo photo. -/
theorem countPromoPhotos_send_le (u : UserId) (db : DB) (env : Mp3Env) :
    countPromoPhotos (send_promotional_content u db env) ≤ 1 := by
  unfold send_promotional_content countPromoPhotos
  cases env.promoFetchOk <;> simp
  cases get_current_promo db <;> simp
  cases env.promoSepSendOk <;> simp
  cases env.promoPhotoSendOk <;> simp

/-- When the promo fetch and both promo sends succeed and a promo exists, the
promo sender delivers exactly one promo photo. -/
theorem countPromoPhotos_send_eq_one (u : UserId) (db : DB) (env : Mp3Env)
    (h1 : env.promoFetchOk = true) (h2 : env.promoSepSendOk = true)
    (h3 : env.promoPhotoSendOk = true)
    (h4 : (get_current_promo db).isSome = true) :
    countPromoPhotos (send_promotional_content u db env) = 1 := by
  unfold send_promotional_content countPromoPhotos
  rw [h1, h2, h3]
  cases hcp : get_current_promo db with
  | none => rw [hcp] at h4; simp at h4
  | some p => simp

/-! ### Claim theorems -/

/-- Claim C2: writing a payload for a user and reading it back returns that
payload; a second write overwrites (last-write-wins, not merge), so the read
returns the second payload and never the first, and after a second search by
the same user, resolving index 0 yields the head of the second result list,
an item of the second list. -/
theorem sessionStore_last_write_wins (s : SessionStore) (u : UserId)
    (X Y : SessionPayload) (l1 l2 : List Video) (q1 q2 : String) :
    (s.put u X).get u = some X
    ∧ ((s.put u X).put u Y).get u = some Y
    ∧ (X ≠ Y → ((s.put u X).put u Y).get u ≠ some X)
    ∧ (∀ v rest, l2 = v :: rest →
        resolveCandidate
          ((s.put u (.candidateList l1 q1)).put u (.candidateList l2 q2)) u 0
          = .ok v
        ∧ v ∈ l2) := by
  refine ⟨SessionStore.get_put s u X, SessionStore.get_put _ u Y, ?_, ?_⟩
  · intro hne hcontra
    rw [SessionStore.get_put] at hcontra
    exact hne (Option.some.inj hcontra).symm
  · intro v rest hl2
    subst hl2
    constructor
    · unfold resolveCandidate
      rw [SessionStore.get_put]
      simp [pyIndex]
    · exact List.mem_cons_self v rest

/-- Claim C2 witness. -/
theorem sessionStore_last_write_wins_witness :
    (SessionStore.put ([] : SessionStore) 3
        (.candidateList [⟨"a", "T1", "C", "u", "t"⟩] "q1")).get 3
      = some (.candidateList [⟨"a", "T1", "C", "u", "t"⟩] "q1")
    ∧ ((SessionStore.put ([] : SessionStore) 3
          (.candidateList [⟨"a", "T1", "C", "u", "t"⟩] "q1")).put 3
            (.candidateList [⟨"b", "T2", "C", "u", "t"⟩] "q2")).get 3
      = some (.candidateList [⟨"b", "T2", "C", "u", "t"⟩] "q2")
    ∧ ((.candidateList [⟨"a", "T1", "C", "u", "t"⟩] "q1" : SessionPayload)
          ≠ .candidateList [⟨"b", "T2", "C", "u", "t"⟩] "q2" →
        ((SessionStore.put ([] : SessionStore) 3
            (.candidateList [⟨"a", "T1", "C", "u", "t"⟩] "q1")).put 3
              (.candidateList [⟨"b", "T2", "C", "u", "t"⟩] "q2")).get 3
          ≠ some (.candidateList [⟨"a", "T1", "C", "u", "t"⟩] "q1"))
    ∧ (∀ v rest, [⟨"b", "T2", "C", "u", "t"⟩] = v :: rest →
        resolveCandidate
          ((SessionStore.put ([] : SessionStore) 3
              (.candidateList [⟨"a", "T1", "C", "u", "t"⟩] "q1")).put 3
                (.candidateList [⟨"b", "T2", "C", "u", "t"⟩] "q2")) 3 0
          = .ok v
        ∧ v ∈ [(⟨"b", "T2", "C", "u", "t"⟩ : Video)]) :=
  sessionStore_last_write_wins [] 3
    (.candidateList [⟨"a", "T1", "C", "u", "t"⟩] "q1")
    (.candidateList [⟨"b", "T2", "C", "u", "t"⟩] "q2")
    [⟨"a", "T1", "C", "u", "t"⟩] [⟨"b", "T2", "C", "u", "t"⟩] "q1" "q2"

/-- Claim C4: the access gate composed in `handle_text_message` admits a user
iff the user is an admin, or no forced channel is configured, or the
membership check passes; and a membership-check error fails open. -/
theorem access_gate_spec_equivalence (adminIds : List UserId) (u : UserId)
    (db : DB) (m : MembershipResult) :
    allowedGate adminIds u db m = allowedSpec adminIds u db m
    ∧ allowedGate adminIds u db .err = true := by
  constructor
  · unfold allowedGate allowedSpec check_channel_membership forcedChannelConfigured
    cases hset : get_setting db "forced_channel" with
    | none => simp
    | some ch =>
      by_cases hch : ch = ""
      · cases m <;> simp [hch]
      · cases m <;> simp [hch]
  · unfold allowedGate check_channel_membership
    cases hset : get_setting db "forced_channel" with
    | none => simp
    | some ch =>
      by_cases hch : ch = "" <;> simp [hch]

/-- Claim C5: a search returning zero items reaches the no-results outcome
and performs no session write: the store is returned exactly as it was. -/
theorem empty_search_no_session_write (o : Bool) (e : ExtractResult)
    (s : SessionStore) (u : UserId) (q : String)
    (h : search_videos o e q 8 = []) :
    handle_search o e s u q = (.noResults, s) := by
  unfold handle_search handle_search_core
  rw [h]
  simp

/-- Claim C5 witness. -/
theorem empty_search_no_session_write_witness :
    search_videos false .err "some song" 8 = []
    ∧ handle_search false .err
        (SessionStore.put ([] : SessionStore) 5
          (.candidateList [⟨"a", "T", "C", "u", "t"⟩] "old")) 5 "some song"
      = (.noResults,
         SessionStore.put ([] : SessionStore) 5
           (.candidateList [⟨"a", "T", "C", "u", "t"⟩] "old")) :=
  ⟨rfl, empty_search_no_session_write false .err
    (SessionStore.put ([] : SessionStore) 5
      (.candidateList [⟨"a", "T", "C", "u", "t"⟩] "old")) 5 "some song" rfl⟩

/-- Claim C7: replacing the promo (delete-all then insert-one, as in
`addpromo_command`) makes `get_current_promo` return exactly the newly
inserted record, never a prior one, whatever the prior records' timestamps
were. -/
theorem replace_promo_get_current (db : DB) (p : Promo) :
    get_current_promo (addpromo_replace db p) = some p := rfl

/-- Claim C10: the user-count query returns a pair whose active count never
exceeds its total count. -/
theorem user_count_active_le_total (db : DB) :
    (get_user_count db).2 ≤ (get_user_count db).1 := by
  simpa [get_user_count] using List.length_filter_le (fun r => r.is_active) db.users

/-- Claim C1 (amended): candidate selection fails with the session-expired
rejection when no entry exists, and with the invalid-selection rejection when
the index is at least the stored list's length, and in those two cases no
download is started; but an index `i` with `-length ≤ i < 0` is accepted via
Python negative indexing (resolving to the `(length + i)`-th candidate), an
index below `-length` raises an uncaught IndexError, and a stored
ResolvedTarget entry raises an uncaught KeyError — the generic error path,
not the invalid-selection rejection. -/
theorem resolveCandidate_error_cases (s : SessionStore) (u : UserId) (i : Int)
    (env : Mp3Env) (db : DB) :
    (s.get u = none →
      resolveCandidate s u i = .sessionExpired
      ∧ handle_mp3_flow s u i env db = (.sessionExpiredMsg, s, db, []))
    ∧ (∀ vs q, s.get u = some (.candidateList vs q) →
        (((vs.length : Int) ≤ i →
          resolveCandidate s u i = .invalidSelection
          ∧ handle_mp3_flow s u i env db = (.invalidSelectionMsg, s, db, []))
        ∧ (i < -(vs.length : Int) → resolveCandidate s u i = .indexError)
        ∧ (-(vs.length : Int) ≤ i → i < 0 →
            ∃ v, resolveCandidate s u i = .ok v
              ∧ vs.get? ((vs.length : Int) + i).toNat = some v)))
    ∧ (∀ vi ou, s.get u = some (.resolvedTarget vi ou) →
        resolveCandidate s u i = .keyError) := by
  refine ⟨?_, ?_, ?_⟩
  · intro hget
    have hres : resolveCandidate s u i = .sessionExpired := by
      unfold resolveCandidate; rw [hget]
    refine ⟨hres, ?_⟩
    unfold handle_mp3_flow
    rw [hres]
  · intro vs q hget
    refine ⟨?_, ?_, ?_⟩
    · intro hle
      have hres : resolveCandidate s u i = .invalidSelection := by
        unfold resolveCandidate; rw [hget]; simp [hle]
      refine ⟨hres, ?_⟩
      unfold handle_mp3_flow
      rw [hres]
    · intro hlt
      have hle : ¬ ((vs.length : Int) ≤ i) := by omega
      have hpy : pyIndex vs i = none := by
        unfold pyIndex
        have h1 : ¬ (0 ≤ i) := by omega
        have h2 : ¬ (0 ≤ (vs.length : Int) + i) := by omega
        rw [if_neg h1, if_neg h2]
      unfold resolveCandidate
      rw [hget]
      simp [hle, hpy]
    · intro hge hneg
      have hle : ¬ ((vs.length : Int) ≤ i) := by omega
      have hlt2 : ((vs.length : Int) + i).toNat < vs.length := by omega
      have hpy : pyIndex vs i = some (vs.get ⟨((vs.length : Int) + i).toNat, hlt2⟩) := by
        unfold pyIndex
        have h1 : ¬ (0 ≤ i) := by omega
        have h2 : 0 ≤ (vs.length : Int) + i := by omega
        rw [if_neg h1, if_pos h2]
        exact List.get?_eq_get hlt2
      refine ⟨vs.get ⟨((vs.length : Int) + i).toNat, hlt2⟩, ?_, ?_⟩
      · unfold resolveCandidate
        rw [hget]
        simp [hle, hpy]
      · exact List.get?_eq_get hlt2
  · intro vi ou hget
    unfold resolveCandidate
    rw [hget]

/-- Claim C1 counterexample: with a stored one-element candidate list, the
selection index `-1` is not rejected as invalid — Python negative indexing
accepts it, resolves the single candidate and the download completes. -/
theorem resolveCandidate_negative_index_accepted :
    resolveCandidate
        (SessionStore.put ([] : SessionStore) 7
          (.candidateList [⟨"a", "T", "C", "u", "t"⟩] "q")) 7 (-1)
      = .ok ⟨"a", "T", "C", "u", "t"⟩
    ∧ resolveCandidate
        (SessionStore.put ([] : SessionStore) 7
          (.candidateList [⟨"a", "T", "C", "u", "t"⟩] "q")) 7 (-1)
      ≠ .invalidSelection
    ∧ (handle_mp3_flow
        (SessionStore.put ([] : SessionStore) 7
          (.candidateList [⟨"a", "T", "C", "u", "t"⟩] "q")) 7 (-1)
        ⟨some "f", true, true, true, true, true, true⟩ ⟨[], [], [], []⟩).1 = .completed := by
  refine ⟨rfl, ?_, rfl⟩
  decide

/-- Claim C1 witness. -/
theorem resolveCandidate_error_cases_witness :
    (SessionStore.get ([] : SessionStore) 9 = none →
      resolveCandidate ([] : SessionStore) 9 0 = .sessionExpired
      ∧ handle_mp3_flow ([] : SessionStore) 9 0
          ⟨some "f", true, true, true, true, true, true⟩ ⟨[], [], [], []⟩
        = (.sessionExpiredMsg, [], ⟨[], [], [], []⟩, []))
    ∧ (∀ vs q, SessionStore.get ([] : SessionStore) 9 = some (.candidateList vs q) →
        (((vs.length : Int) ≤ 0 →
          resolveCandidate ([] : SessionStore) 9 0 = .invalidSelection
          ∧ handle_mp3_flow ([] : SessionStore) 9 0
              ⟨some "f", true, true, true, true, true, true⟩ ⟨[], [], [], []⟩
            = (.invalidSelectionMsg, [], ⟨[], [], [], []⟩, []))
        ∧ ((0 : Int) < -(vs.length : Int) →
            resolveCandidate ([] : SessionStore) 9 0 = .indexError)
        ∧ (-(vs.length : Int) ≤ 0 → (0 : Int) < 0 →
            ∃ v, resolveCandidate ([] : SessionStore) 9 0 = .ok v
              ∧ vs.get? ((vs.length : Int) + 0).toNat = some v)))
    ∧ (∀ vi ou, SessionStore.get ([] : SessionStore) 9 = some (.resolvedTarget vi ou) →
        resolveCandidate ([] : SessionStore) 9 0 = .keyError) :=
  resolveCandidate_error_cases [] 9 0 ⟨some "f", true, true, true, true, true, true⟩ ⟨[], [], [], []⟩

/-- Claim C8: the download handler never writes the session store — on a
fetch failure it reports the download-failed message with the database
unchanged and the same selection still resolving to the same candidate, and
any successful resolution is a non-destructive read, so it resolves
identically after the flow. -/
theorem fetch_failure_preserves_session (s : SessionStore) (u : UserId)
    (i : Int) (env : Mp3Env) (db : DB) :
    (handle_mp3_flow s u i env db).2.1 = s
    ∧ (∀ v, resolveCandidate s u i = .ok v → env.fetchResult = none →
        (handle_mp3_flow s u i env db).1 = .downloadFailedMsg
        ∧ (handle_mp3_flow s u i env db).2.2.1 = db
        ∧ resolveCandidate (handle_mp3_flow s u i env db).2.1 u i = .ok v)
    ∧ (∀ v, resolveCandidate s u i = .ok v →
        resolveCandidate (handle_mp3_flow s u i env db).2.1 u i = .ok v) := by
  have hstore : (handle_mp3_flow s u i env db).2.1 = s := by
    unfold handle_mp3_flow
    cases hres : resolveCandidate s u i <;> simp
    case ok v =>
      cases hproc : process_mp3_download u v env db with
      | mk raised db2 msgs => cases raised <;> simp
  refine ⟨hstore, ?_, ?_⟩
  · intro v hres hfetch
    have hproc : process_mp3_download u v env db
        = ⟨some "MP3 processing failed: Failed to download audio", db, []⟩ := by
      unfold process_mp3_download
      rw [hfetch]
    refine ⟨?_, ?_, ?_⟩
    · unfold handle_mp3_flow
      rw [hres]
      simp [hproc]
    · unfold handle_mp3_flow
      rw [hres]
      simp [hproc]
    · rw [hstore]
      exact hres
  · intro v hres
    rw [hstore]
    exact hres

/-- Claim C8 witness. -/
theorem fetch_failure_preserves_session_witness :
    (handle_mp3_flow
        (SessionStore.put ([] : SessionStore) 7
          (.candidateList [⟨"a", "T", "C", "u", "t"⟩] "q")) 7 0
        ⟨none, true, true, true, true, true, true⟩ ⟨[], [], [], []⟩).2.1
      = SessionStore.put ([] : SessionStore) 7
          (.candidateList [⟨"a", "T", "C", "u", "t"⟩] "q")
    ∧ (∀ v, resolveCandidate
          (SessionStore.put ([] : SessionStore) 7
            (.candidateList [⟨"a", "T", "C", "u", "t"⟩] "q")) 7 0 = .ok v →
        (⟨none, true, true, true, true, true, true⟩ : Mp3Env).fetchResult = none →
        (handle_mp3_flow
            (SessionStore.put ([] : SessionStore) 7
              (.candidateList [⟨"a", "T", "C", "u", "t"⟩] "q")) 7 0
            ⟨none, true, true, true, true, true, true⟩ ⟨[], [], [], []⟩).1 = .downloadFailedMsg
        ∧ (handle_mp3_flow
            (SessionStore.put ([] : SessionStore) 7
              (.candidateList [⟨"a", "T", "C", "u", "t"⟩] "q")) 7 0
            ⟨none, true, true, true, true, true, true⟩ ⟨[], [], [], []⟩).2.2.1 = ⟨[], [], [], []⟩
        ∧ resolveCandidate
            (handle_mp3_flow
              (SessionStore.put ([] : SessionStore) 7
                (.candidateList [⟨"a", "T", "C", "u", "t"⟩] "q")) 7 0
              ⟨none, true, true, true, true, true, true⟩ ⟨[], [], [], []⟩).2.1 7 0 = .ok v)
    ∧ (∀ v, resolveCandidate
          (SessionStore.put ([] : SessionStore) 7
            (.candidateList [⟨"a", "T", "C", "u", "t"⟩] "q")) 7 0 = .ok v →
        resolveCandidate
          (handle_mp3_flow
            (SessionStore.put ([] : SessionStore) 7
              (.candidateList [⟨"a", "T", "C", "u", "t"⟩] "q")) 7 0
            ⟨none, true, true, true, true, true, true⟩ ⟨[], [], [], []⟩).2.1 7 0 = .ok v) :=
  fetch_failure_preserves_session
    (SessionStore.put ([] : SessionStore) 7
      (.candidateList [⟨"a", "T", "C", "u", "t"⟩] "q")) 7 0
    ⟨none, true, true, true, true, true, true⟩ ⟨[], [], [], []⟩

/-- Claim C3: when the delivery path completes without a raise — audio
fetched, audio file sent, temporary file removed and status message edited —
exactly one mp3 download record for the user is appended, the audio file
message precedes everything else, at most one promo photo follows, and when
a promo exists and its fetch and sends all succeed, exactly one promo photo
is delivered; nothing is raised for any combination of promo-failure flags
(promo failures are swallowed, never surface and never reverse the delivery
or the record), and even when the post-record `os.remove` or status edit
raises, the single appended record survives — a raise never reverses it. -/
theorem mp3_delivery_record_and_promo (u : UserId) (v : Video) (env : Mp3Env)
    (db : DB) (f : String) (hf : env.fetchResult = some f)
    (hs : env.sendAudioOk = true) (hc : env.cleanupOk = true)
    (he : env.completeEditOk = true) :
    ∃ msgs,
      process_mp3_download u v env db
        = ⟨none, { db with downloads := db.downloads ++ [⟨u, v.title, "mp3", none⟩] }, msgs⟩
      ∧ msgs.head? = some (.audioFile u v.title)
      ∧ countPromoPhotos msgs ≤ 1
      ∧ (env.promoFetchOk = true → env.promoSepSendOk = true →
          env.promoPhotoSendOk = true → (get_current_promo db).isSome = true →
          countPromoPhotos msgs = 1)
      ∧ (∀ c ed : Bool,
          (process_mp3_download u v
              { env with cleanupOk := c, completeEditOk := ed } db).db
            = { db with downloads := db.downloads ++ [⟨u, v.title, "mp3", none⟩] }) := by
  refine ⟨Msg.audioFile u v.title
      :: send_promotional_content u (add_download db u v.title "mp3" none) env,
    ?_, rfl, ?_, ?_, ?_⟩
  · unfold process_mp3_download
    rw [hf, hs, hc, he]
    rfl
  · have hle := countPromoPhotos_send_le u (add_download db u v.title "mp3" none) env
    unfold countPromoPhotos at hle ⊢
    simpa using hle
  · intro h1 h2 h3 h4
    have h4b : (get_current_promo (add_download db u v.title "mp3" none)).isSome = true := h4
    have heq := countPromoPhotos_send_eq_one u (add_download db u v.title "mp3" none) env
      h1 h2 h3 h4b
    unfold countPromoPhotos at heq ⊢
    simpa using heq
  · intro c ed
    have hf2 : ({ env with cleanupOk := c, completeEditOk := ed } : Mp3Env).fetchResult
        = some f := hf
    have hs2 : ({ env with cleanupOk := c, completeEditOk := ed } : Mp3Env).sendAudioOk
        = true := hs
    unfold process_mp3_download
    rw [hf2, hs2]
    cases c <;> cases ed <;> rfl

/-- Claim C3 witness. -/
theorem mp3_delivery_record_and_promo_witness :
    (⟨some "f", true, true, true, true, true, true⟩ : Mp3Env).fetchResult = some "f"
    ∧ (⟨some "f", true, true, true, true, true, true⟩ : Mp3Env).sendAudioOk = true
    ∧ (⟨some "f", true, true, true, true, true, true⟩ : Mp3Env).cleanupOk = true
    ∧ (⟨some "f", true, true, true, true, true, true⟩ : Mp3Env).completeEditOk = true
    ∧ ∃ msgs,
        process_mp3_download 7 ⟨"a", "T", "C", "u", "t"⟩
            ⟨some "f", true, true, true, true, true, true⟩
            ⟨[], [], [], [⟨"fid", "cap", "2020"⟩]⟩
          = ⟨none, { users := [], downloads := [] ++ [⟨7, "T", "mp3", none⟩],
                     settings := [], promos := [⟨"fid", "cap", "2020"⟩] }, msgs⟩
        ∧ msgs.head? = some (.audioFile 7 "T")
        ∧ countPromoPhotos msgs ≤ 1
        ∧ ((⟨some "f", true, true, true, true, true, true⟩ : Mp3Env).promoFetchOk = true →
            (⟨some "f", true, true, true, true, true, true⟩ : Mp3Env).promoSepSendOk = true →
            (⟨some "f", true, true, true, true, true, true⟩ : Mp3Env).promoPhotoSendOk = true →
            (get_current_promo ⟨[], [], [], [⟨"fid", "cap", "2020"⟩]⟩).isSome = true →
            countPromoPhotos msgs = 1)
        ∧ (∀ c ed : Bool,
            (process_mp3_download 7 ⟨"a", "T", "C", "u", "t"⟩
                { (⟨some "f", true, true, true, true, true, true⟩ : Mp3Env) with
                    cleanupOk := c, completeEditOk := ed }
                ⟨[], [], [], [⟨"fid", "cap", "2020"⟩]⟩).db
              = { users := [], downloads := [] ++ [⟨7, "T", "mp3", none⟩],
                  settings := [], promos := [⟨"fid", "cap", "2020"⟩] }) :=
  ⟨rfl, rfl, rfl, rfl, mp3_delivery_record_and_promo 7 ⟨"a", "T", "C", "u", "t"⟩
    ⟨some "f", true, true, true, true, true, true⟩ ⟨[], [], [], [⟨"fid", "cap", "2020"⟩]⟩
    "f" rfl rfl rfl rfl⟩

/-- Claim C6: a fresh search stores at most 8 candidates (the hard-coded
`max_results=8`), a lyrics re-search at most 3 (`max_results=3`); a fresh
search returning a nonempty list of N items renders exactly N candidates
(two buttons per candidate) and stores exactly that list, and each candidate
offers exactly two selectable actions, one audio and one video. -/
theorem search_limits_and_rendering (o : Bool) (e : ExtractResult)
    (s : SessionStore) (u : UserId) (q : String) (vs : List Video)
    (hvs : vs = search_videos o e q 8) :
    vs.length ≤ 8
    ∧ (search_videos o e q 3).length ≤ 3
    ∧ (vs ≠ [] →
        (handle_search o e s u q).1 = .listed vs.length
        ∧ (handle_search o e s u q).2 = s.put u (.candidateList vs q))
    ∧ (searchButtons 0 vs).length = 2 * vs.length
    ∧ (∀ i (h : i < vs.length),
        (searchKeyboard vs q).filter (fun a => a.candidateIdx == some i)
          = [.mp3 (vs.get ⟨i, h⟩).vid i, .mp4 (vs.get ⟨i, h⟩).vid i]) := by
  refine ⟨?_, ?_, ?_, searchButtons_length vs 0, ?_⟩
  · have hle := search_videos_length_le o e q 8
    rw [← hvs] at hle
    have hmax : (max 1 8 : Int) = 8 := by norm_num
    rw [hmax] at hle
    omega
  · have hle := search_videos_length_le o e q 3
    have hmax : (max 1 3 : Int) = 3 := by norm_num
    rw [hmax] at hle
    omega
  · intro hne
    unfold handle_search handle_search_core
    rw [← hvs]
    have hemp : vs.isEmpty = false := by
      cases vs with
      | nil => exact absurd rfl hne
      | cons a l => rfl
    rw [hemp]
    exact ⟨rfl, rfl⟩
  · intro i h
    unfold searchKeyboard
    rw [List.filter_append]
    have hbtn := searchButtons_filter_at vs 0 i h
    simp only [Nat.zero_add] at hbtn
    rw [hbtn]
    have hext : ([Action.getLyrics q, Action.searchAgain]).filter
        (fun a => a.candidateIdx == some i) = [] := by
      simp [Action.candidateIdx]
    rw [hext, List.append_nil]

/-- Claim C6 witness. -/
theorem search_limits_and_rendering_witness :
    ([⟨"a", "T1", "C", "https://www.youtube.com/watch?v=a",
        "https://img.youtube.com/vi/a/maxresdefault.jpg"⟩,
      ⟨"b", "T2", "C", "https://www.youtube.com/watch?v=b",
        "https://img.youtube.com/vi/b/maxresdefault.jpg"⟩] : List Video)
      = search_videos false
          (.dictEntries [some ⟨"a", "T1", "C"⟩, some ⟨"b", "T2", "C"⟩]) "q" 8
    ∧ ([⟨"a", "T1", "C", "https://www.youtube.com/watch?v=a",
          "https://img.youtube.com/vi/a/maxresdefault.jpg"⟩,
        ⟨"b", "T2", "C", "https://www.youtube.com/watch?v=b",
          "https://img.youtube.com/vi/b/maxresdefault.jpg"⟩] : List Video).length ≤ 8
    ∧ (search_videos false
        (.dictEntries [some ⟨"a", "T1", "C"⟩, some ⟨"b", "T2", "C"⟩]) "q" 3).length ≤ 3 := by
  have hvs : ([⟨"a", "T1", "C", "https://www.youtube.com/watch?v=a",
        "https://img.youtube.com/vi/a/maxresdefault.jpg"⟩,
      ⟨"b", "T2", "C", "https://www.youtube.com/watch?v=b",
        "https://img.youtube.com/vi/b/maxresdefault.jpg"⟩] : List Video)
      = search_videos false
          (.dictEntries [some ⟨"a", "T1", "C"⟩, some ⟨"b", "T2", "C"⟩]) "q" 8 := rfl
  have h := search_limits_and_rendering false
    (.dictEntries [some ⟨"a", "T1", "C"⟩, some ⟨"b", "T2", "C"⟩]) [] 3 "q" _ hvs
  exact ⟨hvs, h.1, h.2.1⟩

/-- Claim C9 (amended): `search_videos` always returns normally with at most
`max 1 max_results` items — at most `max_results` when `max_results ≥ 1`, but
one item can be returned when `max_results ≤ 0`; an inner extraction failure
yields the empty list; an outer-level failure yields the single hard-coded
fallback candidate `kJQP7kiw5Fk` exactly when the lowercased query contains
"test" or "despacito", and the empty list otherwise. -/
theorem search_videos_total_and_bounded (o : Bool) (e : ExtractResult)
    (q : String) (m : Int) :
    ((search_videos o e q m).length : Int) ≤ max 1 m
    ∧ (1 ≤ m → ((search_videos o e q m).length : Int) ≤ m)
    ∧ search_videos false .err q m = []
    ∧ ((pyIn "test" q.toLower || pyIn "despacito" q.toLower) = true →
        search_videos true e q m = [despacitoVideo])
    ∧ ((pyIn "test" q.toLower || pyIn "despacito" q.toLower) = false →
        search_videos true e q m = []) := by
  refine ⟨search_videos_length_le o e q m, ?_, rfl, ?_, ?_⟩
  · intro hm
    have hle := search_videos_length_le o e q m
    rwa [max_eq_right hm] at hle
  · intro h
    simp only [search_videos, if_true]
    unfold fallbackVideos
    rw [h]
    rfl
  · intro h
    simp only [search_videos, if_true]
    unfold fallbackVideos
    rw [h]
    rfl

/-- Claim C9 counterexample: with `max_results = 0` and one valid entry, the
entry loop appends the entry before checking the cap and returns one item,
exceeding `max_results`. -/
theorem search_videos_exceeds_zero_max :
    (search_videos false (.dictEntries [some ⟨"abc", "Title", "Chan"⟩]) "q" 0).length = 1
    ∧ ¬ ((1 : Int) ≤ 0) := by
  exact ⟨rfl, by decide⟩

/-- Claim C9 witness. -/
theorem search_videos_total_and_bounded_witness :
    ((search_videos true .err "Big TEST song" 5).length : Int) ≤ max 1 5
    ∧ ((1 : Int) ≤ 5 → ((search_videos true .err "Big TEST song" 5).length : Int) ≤ 5)
    ∧ search_videos false .err "Big TEST song" 5 = []
    ∧ ((pyIn "test" ("Big TEST song").toLower
          || pyIn "despacito" ("Big TEST song").toLower) = true →
        search_videos true .err "Big TEST song" 5 = [despacitoVideo])
    ∧ ((pyIn "test" ("Big TEST song").toLower
          || pyIn "despacito" ("Big TEST song").toLower) = false →
        search_videos true .err "Big TEST song" 5 = []) :=
  search_videos_total_and_bounded true .err "Big TEST song" 5

end MusicBot
